import Mathlib

/-!
Verification development for the chat front-end's connection core
(`streamlit_ui.py`): the `WebSocketClient` class (connect / callbacks /
send_message / get_response / close) and the send-turn flow of `main`.

The embedding is a shallow one.  Time is discretized in ticks of the
source's polling interval (0.1 s), so the 5 s connect ceiling is 50 polls.
The concurrent transport is represented by explicit event data threaded
into each call: the tick at which the open acknowledgment arrives
(`Option Nat`), the decode result of each inbound frame, the outcome of a
transport write (`Except SendErr Unit`), and the arrival times of pending
inbound messages during a blocking wait.  Python exceptions never cross
the caller boundary in the source's caller-facing operations; accordingly
every embedded operation is a total function and caught errors are data.
-/

namespace WS

/-- JSON values, as decoded by the host language JSON codec (`json.loads`)
and consumed by the client.  Objects keep their fields in insertion order;
keys of a decoded object are distinct. -/
inductive Json where
  | null
  | bool (b : Bool)
  | num (n : Int)
  | str (s : String)
  | arr (elems : List Json)
  | obj (fields : List (String × Json))

/-- Escape of a single character inside a serialized JSON string, as the
standard-library serializer (`json.dumps`) emits it for the characters
this program can produce. -/
def escapeChar (c : Char) : String :=
  if c = '"' then "\\\""
  else if c = '\\' then "\\\\"
  else if c = '\n' then "\\n"
  else if c = '\t' then "\\t"
  else if c = '\r' then "\\r"
  else String.singleton c

/-- Serialized JSON string literal. -/
def dumpStr (s : String) : String :=
  "\"" ++ String.join (s.toList.map escapeChar) ++ "\""

mutual

/-- Serialization of a JSON value with the default separators of the
standard-library serializer (item separator comma-space, key separator
colon-space), as called on line 69 of the source. -/
def dumps : Json → String
  | .null => "null"
  | .bool true => "true"
  | .bool false => "false"
  | .num n => toString n
  | .str s => dumpStr s
  | .arr elems => "[" ++ dumpsList elems ++ "]"
  | .obj fields => "\x7b" ++ dumpsFields fields ++ "\x7d"

/-- Serialization of the elements of a JSON array. -/
def dumpsList : List Json → String
  | [] => ""
  | [x] => dumps x
  | x :: y :: rest => dumps x ++ ", " ++ dumpsList (y :: rest)

/-- Serialization of the fields of a JSON object. -/
def dumpsFields : List (String × Json) → String
  | [] => ""
  | [(k, v)] => dumpStr k ++ ": " ++ dumps v
  | (k, v) :: y :: rest => dumpStr k ++ ": " ++ dumps v ++ ", " ++ dumpsFields (y :: rest)

end

/-- Truthiness of a decoded JSON value in the host language: `None`,
`False`, zero, and empty strings / lists / dicts are falsy.  `main` line
182 applies this test to a received message. -/
def pyTruthy : Json → Bool
  | .null => false
  | .bool b => b
  | .num n => n != 0
  | .str s => s != ""
  | .arr elems => !elems.isEmpty
  | .obj fields => !fields.isEmpty

/-- Field lookup in a decoded JSON object (keys are distinct, see `Json`). -/
def jsonLookup : List (String × Json) → String → Option Json
  | [], _ => none
  | (k, v) :: rest, key => if k = key then some v else jsonLookup rest key

/-- `dict.get(key, default)` of the host language on a decoded object. -/
def dictGetD (fields : List (String × Json)) (key : String) (dflt : Json) : Json :=
  (jsonLookup fields key).getD dflt

/-- The transport handle (`self.ws`): all the embedding observes of it is
whether `close()` has been requested on it. -/
structure WsHandle where
  closeRequested : Bool

/-- The mutable state of a `WebSocketClient` instance: constructor
arguments, the optional transport handle, the `connected` flag, and the
inbound `message_queue` (FIFO, head = oldest). -/
structure ClientState where
  url : String
  api_key : String
  ws : Option WsHandle
  connected : Bool
  message_queue : List Json

/-- `WebSocketClient.__init__(url, api_key)`: no transport handle yet,
disconnected, empty queue. -/
def initClient (url api_key : String) : ClientState :=
  ⟨url, api_key, none, false, []⟩

/-- The `connected` flag as the polling loop observes it at tick `i`,
given the tick (if any) at which the transport's open acknowledgment
fires `on_open`: the flag is set exactly from that tick on. -/
def connAt (openAck : Option Nat) (i : Nat) : Bool :=
  match openAck with
  | some a => decide (a ≤ i)
  | none => false

/-- The wait loop of `connect` (source lines 36-39): starting at tick `i`
with `fuel` further polls allowed before the 5-unit ceiling, keep
sleeping one tick while the flag is unset; the loop's value is the
`connected` flag re-read when the loop exits. -/
def connectLoop (openAck : Option Nat) : Nat → Nat → Bool
  | i, 0 => connAt openAck i
  | i, fuel + 1 => if connAt openAck i then connAt openAck i else connectLoop openAck (i + 1) fuel

/-- Number of polls inside the ceiling: timeout 5 at interval 0.1. -/
def pollBudget : Nat := 50

/-- `WebSocketClient.connect()`: installs a fresh transport handle,
starts the background receive loop (whose open acknowledgment, if any,
arrives at tick `openAck`), polls the `connected` flag up to the ceiling,
and returns that flag. -/
def connect (st : ClientState) (openAck : Option Nat) : Bool × ClientState :=
  let result := connectLoop openAck 0 pollBudget
  (result, { st with ws := some ⟨false⟩, connected := result })

/-- `WebSocketClient.on_message(ws, message)`: decode the frame with the
JSON codec (`loads`); a successful decode is enqueued at the tail of the
message queue, a failed decode is logged and the state is unchanged.
The callback itself never raises. -/
def on_message (loads : String → Option Json) (st : ClientState) (frame : String) : ClientState :=
  match loads frame with
  | some msg => { st with message_queue := st.message_queue ++ [msg] }
  | none => st

/-- `WebSocketClient.on_error(ws, error)`: logs only; no state change. -/
def on_error (st : ClientState) : ClientState := st

/-- `WebSocketClient.on_close(ws, ...)`: clears the `connected` flag. -/
def on_close (st : ClientState) : ClientState := { st with connected := false }

/-- `WebSocketClient.on_open(ws)`: sets the `connected` flag. -/
def on_open (st : ClientState) : ClientState := { st with connected := true }

/-- Errors the `try` block of `send_message` can catch: a serialization
failure or a transport write failure. -/
inductive SendErr where
  | serializationError
  | writeError

/-- `WebSocketClient.send_message(message)`: when not connected, returns
`false` without transmitting.  When connected it builds the payload
object from the message text and the UTC timestamp `ts` taken at call
time, serializes it and writes it to the transport; `wire` is the outcome
of that serialization-and-write.  The result is the returned boolean
together with the list of frames actually transmitted by the call. -/
def send_message (st : ClientState) (text ts : String) (wire : Except SendErr Unit) :
    Bool × List String :=
  if st.connected then
    match wire with
    | .ok _ => (true, [dumps (Json.obj [("message", Json.str text), ("timestamp", Json.str ts)])])
    | .error _ => (false, [])
  else (false, [])

/-- `WebSocketClient.get_response(timeout)`: `queue.get` with a timeout.
`q` is the queue contents at call time and `pending` the inbound messages
still to be enqueued by the receive loop, tagged with their arrival tick
counted from the start of this call.  A buffered message is returned at
once; otherwise the first pending message is returned iff it arrives
within `t`; on expiry the call returns `none` (`queue.Empty` is caught).
The result also carries the remaining queue and pending list. -/
def get_response (q : List Json) (pending : List (Nat × Json)) (t : Nat) :
    Option Json × List Json × List (Nat × Json) :=
  match q with
  | msg :: rest => (some msg, rest, pending)
  | [] =>
    match pending with
    | (a, msg) :: rest => if a ≤ t then (some msg, [], rest) else (none, [], pending)
    | [] => (none, [], [])

/-- `WebSocketClient.close()`: if a transport handle exists, request its
shutdown; otherwise do nothing.  No other field is touched. -/
def close (st : ClientState) : ClientState :=
  match st.ws with
  | some _ => { st with ws := some ⟨true⟩ }
  | none => st

/-- Outcome of one send-turn of `main` (source lines 178-191), as the UI
renders it. -/
inductive TurnOutcome where
  | assistantReply (content : Json)
  | errorNoResponse
  | errorSendFailed
  | attrError

/-- The reply handling of `main` (source lines 181-189): `response =
get_response(); if response: write(response.get('response', 'No response
received')) else: error('No response received')`.  The `if` is the host
language's truthiness test; `.get` on a truthy non-object raises
`AttributeError` (`attrError`). -/
def handleResponse : Option Json → TurnOutcome
  | none => .errorNoResponse
  | some msg =>
    if pyTruthy msg then
      match msg with
      | .obj fields => .assistantReply (dictGetD fields "response" (.str "No response received"))
      | _ => .attrError
    else .errorNoResponse

/-- The send-turn flow of `main` (source lines 178-191): call
`send_message`; on `false` report the send failure immediately without
touching the inbound channel; on `true` block on `get_response` (default
timeout 30) and hand the result to the reply handling.  Returns the
outcome, the updated client state, and the frames transmitted. -/
def sendTurn (st : ClientState) (text ts : String) (wire : Except SendErr Unit)
    (pending : List (Nat × Json)) (t : Nat) : TurnOutcome × ClientState × List String :=
  let sendRes := send_message st text ts wire
  if sendRes.1 then
    let getRes := get_response st.message_queue pending t
    (handleResponse getRes.1, { st with message_queue := getRes.2.1 }, sendRes.2)
  else (.errorSendFailed, st, sendRes.2)

/-- Deliver a list of raw inbound frames through `on_message` in arrival
order. -/
def deliverAll (loads : String → Option Json) (st : ClientState) (frames : List String) :
    ClientState :=
  frames.foldl (on_message loads) st

/-- The result of the `(n+1)`-th successive `get_response` call against a
queue `q` with no further arrivals. -/
def getSeq : List Json → Nat → Nat → Option Json
  | q, t, 0 => (get_response q [] t).1
  | q, t, n + 1 => getSeq (get_response q [] t).2.1 t n

/-- A client that has completed a successful connect: transport handle
installed, `connected` flag set, queue empty. -/
def connClient : ClientState := ⟨"wss://example/dev", "key", some ⟨false⟩, true, []⟩

/-- A connected client whose peer has already replied, in order, to the
two requests of the FIFO scenario. -/
def fifoClient : ClientState :=
  ⟨"wss://example/dev", "key", some ⟨false⟩, true,
    [Json.obj [("response", Json.str "hi")], Json.obj [("response", Json.str "later")]]⟩

/-- The flag, once observed set, stays set at any later tick. -/
theorem connAt_mono (openAck : Option Nat) (i j : Nat) (hij : i ≤ j)
    (h : connAt openAck i = true) : connAt openAck j = true := by
  cases openAck with
  | none => simp [connAt] at h
  | some a =>
    simp only [connAt, decide_eq_true_eq] at h ⊢
    omega

/-- The wait loop returns the flag as it stands when the full poll budget
has elapsed. -/
theorem connectLoop_eq (openAck : Option Nat) :
    ∀ fuel i, connectLoop openAck i fuel = connAt openAck (i + fuel) := by
  intro fuel
  induction fuel with
  | zero => intro i; simp [connectLoop]
  | succ fuel ih =>
    intro i
    by_cases h : connAt openAck i = true
    · have h50 : connAt openAck (i + (fuel + 1)) = true :=
        connAt_mono openAck i (i + (fuel + 1)) (by omega) h
      simp [connectLoop, h, h50]
    · have harr : i + 1 + fuel = i + (fuel + 1) := by omega
      simp only [connectLoop, h, if_neg]
      rw [ih (i + 1), harr]
      simp [h]

/-- The returned boolean and the stored flag agree when `connect` returns. -/
theorem connect_flag_eq (st : ClientState) (openAck : Option Nat) :
    (connect st openAck).2.connected = (connect st openAck).1 := rfl

/-- C1: `connect()` returns true iff the transport's open acknowledgment
(the event that sets the `connected` flag) is observed within the
5-time-unit ceiling polled at the fixed 0.1 interval — i.e. within the 50
poll ticks of the budget; when it returns false the instance's
`connected` flag is false at return. -/
theorem connect_iff_open_ack (st : ClientState) (openAck : Option Nat) :
    ((connect st openAck).1 = true ↔ ∃ a, openAck = some a ∧ a ≤ pollBudget) ∧
    ((connect st openAck).1 = false → (connect st openAck).2.connected = false) := by
  have hval : (connect st openAck).1 = connAt openAck pollBudget := by
    show connectLoop openAck 0 pollBudget = connAt openAck pollBudget
    rw [connectLoop_eq openAck pollBudget 0, Nat.zero_add]
  constructor
  · rw [hval]
    cases openAck with
    | none => simp [connAt]
    | some a => simp [connAt]
  · intro hf
    rw [connect_flag_eq, hf]

/-- C1 witness: a transport that never acknowledges makes `connect`
return false with the flag clear, and one acknowledging at tick 3 makes
it return true. -/
theorem connect_iff_open_ack_app :
    (connect (initClient "u" "k") none).1 = false ∧
    (connect (initClient "u" "k") none).2.connected = false ∧
    (connect (initClient "u" "k") (some 3)).1 = true := by
  have h := connect_iff_open_ack (initClient "u" "k") none
  have h3 := connect_iff_open_ack (initClient "u" "k") (some 3)
  have hfalse : (connect (initClient "u" "k") none).1 = false := by decide
  exact ⟨hfalse, h.2 hfalse, h3.1.mpr ⟨3, rfl, by decide⟩⟩

/-- C2: with the client not connected, `send_message` returns false and
transmits nothing, and the send-turn flow of `main` reports the send
failure at once, leaving the client state — in particular the inbound
queue — untouched, never consulting the reply channel. -/
theorem send_message_not_connected (st : ClientState) (text ts : String)
    (wire : Except SendErr Unit) (pending : List (Nat × Json)) (t : Nat)
    (h : st.connected = false) :
    send_message st text ts wire = (false, []) ∧
    sendTurn st text ts wire pending t = (.errorSendFailed, st, []) := by
  constructor
  · simp [send_message, h]
  · simp [sendTurn, send_message, h]

/-- C2 witness: a freshly constructed (never connected) client refuses
the send and the turn reports `errorSendFailed` with the state unchanged. -/
theorem send_message_not_connected_app :
    send_message (initClient "u" "k") "hello" "t0" (Except.ok ()) = (false, []) ∧
    sendTurn (initClient "u" "k") "hello" "t0" (Except.ok ()) [] 30 =
      (.errorSendFailed, initClient "u" "k", []) :=
  send_message_not_connected (initClient "u" "k") "hello" "t0" (Except.ok ()) [] 30 rfl

/-- C5: when the queue is empty at call time and every pending inbound
message arrives strictly after the timeout `t`, `get_response` returns
the definite failure value `none` instead of blocking or raising. -/
theorem get_response_timeout_none (q : List Json) (pending : List (Nat × Json)) (t : Nat)
    (hq : q = []) (hp : ∀ p ∈ pending, t < p.1) :
    (get_response q pending t).1 = none := by
  subst hq
  cases pending with
  | nil => rfl
  | cons p rest =>
    obtain ⟨a, msg⟩ := p
    have ha := hp (a, msg) (List.mem_cons_self _ _)
    simp only at ha
    simp [get_response, Nat.not_le.mpr ha]

/-- C5 witness: with one message due at tick 40 and a 30-tick timeout,
the call times out with `none`. -/
theorem get_response_timeout_none_app :
    (get_response [] [(40, Json.null)] 30).1 = none :=
  get_response_timeout_none [] [(40, Json.null)] 30 rfl (by decide)

/-- Successive `get_response` calls walk the queue front to back: the
`(n+1)`-th call returns the `n`-th buffered element. -/
theorem getSeq_eq (t : Nat) : ∀ n q, getSeq q t n = q[n]? := by
  intro n
  induction n with
  | zero => intro q; cases q <;> simp [getSeq, get_response]
  | succ n ih =>
    intro q
    cases q with
    | nil => simp [getSeq, get_response, ih]
    | cons msg rest => simp [getSeq, get_response, ih]

/-- Delivering frames through `on_message` appends exactly the
successfully decoded ones, in arrival order, to the queue. -/
theorem deliverAll_queue (loads : String → Option Json) :
    ∀ frames st, (deliverAll loads st frames).message_queue =
      st.message_queue ++ frames.filterMap loads := by
  intro frames
  induction frames with
  | nil => intro st; simp [deliverAll]
  | cons f fs ih =>
    intro st
    show (deliverAll loads (on_message loads st f) fs).message_queue = _
    rw [ih (on_message loads st f)]
    cases hl : loads f <;> simp [on_message, hl]

/-- C3: the inbound channel is FIFO.  For any sequence of frames whose
well-formed decodes are the pushed messages, the `(n+1)`-th successful
`get_response` returns the `(n+1)`-th pushed message, with no reordering
or deduplication; consequently, in the two-turn scenario where the peer
has replied once per request in order, the two sequential send-turns
receive their own replies in order ("hi" then "later"). -/
theorem inbound_fifo (loads : String → Option Json) (frames : List String) (st : ClientState)
    (t n : Nat) (_hwf : ∀ f ∈ frames, (loads f).isSome) (hq : st.message_queue = []) :
    getSeq (deliverAll loads st frames).message_queue t n = (frames.filterMap loads)[n]? ∧
    (sendTurn fifoClient "hello" "t1" (Except.ok ()) [] 30).1 =
      TurnOutcome.assistantReply (Json.str "hi") ∧
    (sendTurn (sendTurn fifoClient "hello" "t1" (Except.ok ()) [] 30).2.1 "bye" "t2"
      (Except.ok ()) [] 30).1 = TurnOutcome.assistantReply (Json.str "later") := by
  refine ⟨?_, rfl, rfl⟩
  rw [deliverAll_queue loads frames st, hq, List.nil_append, getSeq_eq]

/-- C3 witness: after pushing the decodes of frames "a" then "b", the
second `get_response` returns the decode of "b". -/
theorem inbound_fifo_app :
    getSeq (deliverAll
        (fun s => if s = "a" then some (Json.str "A")
          else if s = "b" then some (Json.str "B") else none)
        (initClient "u" "k") ["a", "b"]).message_queue 30 1 = some (Json.str "B") := by
  have h := inbound_fifo
    (fun s => if s = "a" then some (Json.str "A")
      else if s = "b" then some (Json.str "B") else none)
    ["a", "b"] (initClient "u" "k") 30 1 (by decide) rfl
  rw [h.1]
  rfl

/-- C4 counterexample: the empty JSON object is a message delivered to
the waiting caller whose "response" key is absent, yet the flow does not
produce the fallback string as the reply — being falsy, the message takes
the error branch (`errorNoResponse`), contradicting the claim that the
fallback is produced instead of an error. -/
theorem empty_object_reply_cex :
    handleResponse (some (Json.obj [])) = TurnOutcome.errorNoResponse ∧
    handleResponse (some (Json.obj [])) ≠
      TurnOutcome.assistantReply (Json.str "No response received") :=
  ⟨rfl, fun h => TurnOutcome.noConfusion h⟩

/-- C4 amended: for every inbound object delivered to a waiting caller
that has at least one field, the reply is the value of its "response" key
when present (all other keys ignored), and the fixed fallback string
`No response received` when the key is absent; the empty object instead
takes the no-response error path (which displays the same text as an
error). -/
theorem reply_extraction_amended (fields : List (String × Json)) :
    (∀ v, jsonLookup fields "response" = some v →
      handleResponse (some (Json.obj fields)) = TurnOutcome.assistantReply v) ∧
    (fields ≠ [] → jsonLookup fields "response" = none →
      handleResponse (some (Json.obj fields)) =
        TurnOutcome.assistantReply (Json.str "No response received")) ∧
    handleResponse (some (Json.obj [])) = TurnOutcome.errorNoResponse := by
  refine ⟨?_, ?_, rfl⟩
  · intro v hv
    cases fields with
    | nil => simp [jsonLookup] at hv
    | cons kv rest =>
      simp [handleResponse, pyTruthy, dictGetD, hv]
  · intro hne hv
    cases fields with
    | nil => exact absurd rfl hne
    | cons kv rest =>
      simp [handleResponse, pyTruthy, dictGetD, hv]

/-- C4 amended witness: a present key yields its value, an absent key on
a nonempty object yields the fallback string. -/
theorem reply_extraction_amended_app :
    handleResponse (some (Json.obj [("response", Json.str "hello"), ("x", Json.null)])) =
      TurnOutcome.assistantReply (Json.str "hello") ∧
    handleResponse (some (Json.obj [("other", Json.num 1)])) =
      TurnOutcome.assistantReply (Json.str "No response received") :=
  ⟨(reply_extraction_amended [("response", Json.str "hello"), ("x", Json.null)]).1
      (Json.str "hello") rfl,
    (reply_extraction_amended [("other", Json.num 1)]).2.1
      (List.cons_ne_nil _ _) rfl⟩

/-- C6: the `on_message` callback drops a frame the codec fails to decode
— the state (in particular the queue) is unchanged and no error value is
produced — and enqueues exactly the successfully decoded frames at the
tail of the queue. -/
theorem on_message_drop_malformed (loads : String → Option Json) (st : ClientState)
    (frame : String) :
    (loads frame = none → on_message loads st frame = st) ∧
    (∀ msg, loads frame = some msg →
      on_message loads st frame = { st with message_queue := st.message_queue ++ [msg] }) := by
  constructor
  · intro h; simp [on_message, h]
  · intro msg h; simp [on_message, h]

/-- C6 witness: a malformed frame leaves a fresh client untouched, and a
well-formed one is enqueued. -/
theorem on_message_drop_malformed_app :
    on_message (fun _ => (none : Option Json)) (initClient "u" "k") "not json" =
      initClient "u" "k" ∧
    on_message (fun _ => some Json.null) (initClient "u" "k") "null" =
      ⟨"u", "k", none, false, [Json.null]⟩ := by
  constructor
  · exact (on_message_drop_malformed (fun _ => none) (initClient "u" "k") "not json").1 rfl
  · have h := (on_message_drop_malformed (fun _ => some Json.null)
      (initClient "u" "k") "null").2 Json.null rfl
    simpa [initClient] using h

/-- C7: for a connected client, `send_message` is total — any
serialization or transport write error is caught and reported as the
return value `false`, and a successful transmission returns `true`; the
returned boolean is `true` exactly when the serialization-and-write
succeeded. -/
theorem send_message_total_when_connected (st : ClientState) (text ts : String)
    (wire : Except SendErr Unit) (h : st.connected = true) :
    ((send_message st text ts wire).1 = true ↔ wire = Except.ok ()) := by
  cases wire with
  | ok u => cases u; simp [send_message, h]
  | error e => simp [send_message, h]

/-- C7 witness: on a connected client a successful write returns true and
a failing write returns false rather than a raised fault. -/
theorem send_message_total_when_connected_app :
    (send_message connClient "hi" "t0" (Except.ok ())).1 = true ∧
    (send_message connClient "hi" "t0" (Except.error SendErr.writeError)).1 ≠ true :=
  ⟨(send_message_total_when_connected connClient "hi" "t0" (Except.ok ()) rfl).mpr rfl,
    fun h => Except.noConfusion
      ((send_message_total_when_connected connClient "hi" "t0"
        (Except.error SendErr.writeError) rfl).mp h)⟩

/-- C9: a successful `send_message(text)` transmits exactly one frame,
the serialization of the object with exactly the two keys "message"
(bound to the given text) and "timestamp" (bound to the UTC timestamp
string taken at send time), built fresh for the call. -/
theorem send_message_wire_format (st : ClientState) (text ts : String)
    (h : st.connected = true) :
    send_message st text ts (Except.ok ()) =
      (true, [dumps (Json.obj [("message", Json.str text), ("timestamp", Json.str ts)])]) := by
  simp [send_message, h]

/-- C9 witness: the single transmitted frame at a concrete text and
timestamp, fully evaluated. -/
theorem send_message_wire_format_app :
    send_message connClient "hi" "2024-01-01T00:00:00" (Except.ok ()) =
      (true, ["\x7b\"message\": \"hi\", \"timestamp\": \"2024-01-01T00:00:00\"\x7d"]) := by
  have h := send_message_wire_format connClient "hi" "2024-01-01T00:00:00" rfl
  rw [h]
  rfl

/-- C8: `close()` is idempotent — closing twice equals closing once — and
is a no-op without fault on a client on which `connect` was never called
(transport handle still unset). -/
theorem close_idempotent (st : ClientState) (url api_key : String) :
    close (close st) = close st ∧ close (initClient url api_key) = initClient url api_key := by
  constructor
  · cases h : st.ws <;> simp [close, h]
  · rfl

/-- C10: `close()` changes neither the `connected` flag nor the message
queue — it only requests transport shutdown; the flag is cleared only by
the `on_close` callback, so a connected client still reads as connected
right after `close()` returns, before the close event fires. -/
theorem close_frame_effect (st : ClientState) :
    (close st).connected = st.connected ∧
    (close st).message_queue = st.message_queue ∧
    (on_close st).connected = false ∧
    (st.connected = true → (close st).connected = true) := by
  have h1 : (close st).connected = st.connected := by
    cases h : st.ws <;> simp [close, h]
  have h2 : (close st).message_queue = st.message_queue := by
    cases h : st.ws <;> simp [close, h]
  exact ⟨h1, h2, rfl, fun hc => h1.trans hc⟩

/-- C10 witness: on a connected client, the status read after `close()`
but before the close event still reports connected. -/
theorem close_frame_effect_app : (close connClient).connected = true :=
  (close_frame_effect connClient).2.2.2 rfl

end WS
